import Mathlib

/-!
# Verification of the data-quality and drift-detection core (`src/model/data_quality.py`)

This file is a shallow embedding of the `DataQualityChecker` class:

* the fixed Great Expectations suite built by `_create_expectation_suite`;
* `validate_training_data` / `validate_inference_data`, which convert the
  input batch to a DataFrame, run the suite, and catch every exception at
  the boundary (returning the sentinel `False`);
* `detect_data_drift`, which runs a two-sample Kolmogorov-Smirnov test and a
  k-sample Anderson-Darling test per feature column, with an inner bare
  `except` around the Anderson-Darling call and an outer `except` returning
  `(False, {})`;
* `save_reference_data` / `load_reference_data` over `np.save` / `np.load`.

Modelling conventions:

* Machine floats are modelled as rationals (`ℚ`); all computations of the
  Python code on the paths we verify are exact, so no rounding is modelled.
* Python exceptions are modelled with `Except String`; a `try/except`
  boundary is a `match` on the `Except` value.
* The SciPy `ks_2samp` call is modelled in its exact mode (the mode
  `method='auto'` selects for the sample sizes arising here): the statistic
  is the sup-distance of the two empirical CDFs over the pooled sample, and
  the two-sided p-value is the exact survival probability computed by
  lattice-path counting.  `anderson_ksamp` enters the code only through the
  inner `try/except`, so it is a parameter of the detector: any function
  returning `none` (the call raised) or `some` of the triple of outputs.
* The filesystem used by the reference store is an explicit association
  list from paths to arrays; I/O is assumed to succeed (the fail-soft
  logging branches are not exercised by the properties below).
-/

namespace DataQuality

/-- A DataFrame cell: a (float) number, a null (`None`/`NaN`), or a
non-numeric value.  Numeric cells model `float64` values, which is the dtype
of every batch reaching the validator in this code base (training data from
`make_classification`, inference data from a `List[List[float]]` request
body). -/
inductive Cell where
  | num (q : ℚ)
  | null
  | nonNum (s : String)
deriving DecidableEq, Repr

/-- One Great Expectations `ExpectationConfiguration`, restricted to the six
expectation types that `_create_expectation_suite` uses. -/
inductive ExpectationConfiguration where
  | expect_table_row_count_to_be_between (min_value max_value : ℤ)
  | expect_table_columns_to_match_ordered_list (column_list : List String)
  | expect_column_to_exist (column : String)
  | expect_column_values_to_be_of_type (column : String) (type_ : String)
  | expect_column_values_to_not_be_null (column : String)
  | expect_column_values_to_be_between (column : String) (min_value max_value : ℤ)
deriving DecidableEq, Repr

/-- The column name `f"feature_{i}"`. -/
def featureName (i : ℕ) : String := "feature_" ++ toString i

/-- `_create_expectation_suite`: the fixed ordered suite — row count in
[1, 10000], ordered column list `feature_0 .. feature_3`, then for each of
the four features: exists, `float64`-typed, not null, value in [-10, 10]. -/
def createExpectationSuite : List ExpectationConfiguration :=
  [ExpectationConfiguration.expect_table_row_count_to_be_between 1 10000,
   ExpectationConfiguration.expect_table_columns_to_match_ordered_list
     ["feature_0", "feature_1", "feature_2", "feature_3"]]
  ++ ((List.range 4).map (fun i =>
    [ExpectationConfiguration.expect_column_to_exist (featureName i),
     ExpectationConfiguration.expect_column_values_to_be_of_type (featureName i) "float64",
     ExpectationConfiguration.expect_column_values_to_not_be_null (featureName i),
     ExpectationConfiguration.expect_column_values_to_be_between (featureName i) (-10) 10])).flatten

/-- A pandas DataFrame: ordered association list of column name to column
cells. -/
abbrev DataFrame : Type := List (String × List Cell)

/-- Number of rows of a DataFrame (0 for an empty frame). -/
def DataFrame.nrows (df : DataFrame) : ℕ :=
  (df.head?.map (fun c => c.2.length)).getD 0

/-- Column lookup by name. -/
def DataFrame.col (df : DataFrame) (c : String) : Option (List Cell) :=
  List.lookup c df

/-- The pandas dtype of a column in this model: `float64` when every cell is
numeric or null (pandas stores `None` as `NaN` in a float column), `object`
otherwise. -/
def colDtype (cells : List Cell) : String :=
  if cells.all (fun c => match c with | Cell.nonNum _ => false | _ => true)
  then "float64" else "object"

/-- Evaluate one expectation against a DataFrame, as the legacy
`PandasDataset.validate` run does (exceptions inside one expectation, e.g. a
comparison on a non-numeric cell or a missing column, are captured as an
unsuccessful result for that expectation only). Great Expectations skips
null cells in column-value expectations such as `to_be_between`. -/
def evalExpectation (df : DataFrame) : ExpectationConfiguration → Bool
  | ExpectationConfiguration.expect_table_row_count_to_be_between lo hi =>
      decide (lo ≤ (df.nrows : ℤ) ∧ (df.nrows : ℤ) ≤ hi)
  | ExpectationConfiguration.expect_table_columns_to_match_ordered_list l =>
      decide (df.map Prod.fst = l)
  | ExpectationConfiguration.expect_column_to_exist c =>
      (df.col c).isSome
  | ExpectationConfiguration.expect_column_values_to_be_of_type c t =>
      match df.col c with
      | some cells => decide (colDtype cells = t)
      | none => false
  | ExpectationConfiguration.expect_column_values_to_not_be_null c =>
      match df.col c with
      | some cells => cells.all (fun x => match x with | Cell.null => false | _ => true)
      | none => false
  | ExpectationConfiguration.expect_column_values_to_be_between c lo hi =>
      match df.col c with
      | some cells => cells.all (fun x => match x with
          | Cell.num q => decide ((lo : ℚ) ≤ q ∧ q ≤ (hi : ℚ))
          | Cell.null => true
          | Cell.nonNum _ => false)
      | none => false

/-- `dataset.validate(...).success`: all expectations of the suite hold. -/
def suiteSuccess (suite : List ExpectationConfiguration) (df : DataFrame) : Bool :=
  suite.all (evalExpectation df)

/-- `X.shape` for a batch passed as rows.  A rectangular non-empty nested
list becomes a 2-D array with shape `(n, d)`; an empty or ragged input does
not (NumPy materialises it as 1-D / object data and `X.shape[1]` raises). -/
def shape2 {α : Type} (X : List (List α)) : Except String (ℕ × ℕ) :=
  match X with
  | [] => Except.error "tuple index out of range"
  | r :: rs =>
      if rs.all (fun q => q.length = r.length)
      then Except.ok (X.length, r.length)
      else Except.error "tuple index out of range"

/-- `pd.DataFrame(X, columns=[f"feature_{i}" for i in range(d)])` for a
rectangular batch of width `d`. -/
def dfOfBatch (X : List (List Cell)) (d : ℕ) : DataFrame :=
  (List.range d).map (fun i => (featureName i, X.map (fun r => r.getD i (Cell.num 0))))

/-- The body of `validate_training_data` inside its `try`: build the frame,
append the target column (`df["target"] = y`, which raises when the length
of `y` does not match the row count), run the suite, and return
`validation_result.success`. -/
def validateTrainingBody (X : List (List Cell)) (y : List Cell) : Except String Bool := do
  let s ← shape2 X
  if y.length = s.1 then
    Except.ok (suiteSuccess createExpectationSuite (dfOfBatch X s.2 ++ [("target", y)]))
  else
    Except.error "Length of values does not match length of index"

/-- `validate_training_data`: the boundary `except` turns any internal
exception into the sentinel `False`. -/
def validate_training_data (X : List (List Cell)) (y : List Cell) : Bool :=
  match validateTrainingBody X y with
  | Except.ok b => b
  | Except.error _ => false

/-- The body of `validate_inference_data` inside its `try`. -/
def validateInferenceBody (X : List (List Cell)) : Except String Bool := do
  let s ← shape2 X
  Except.ok (suiteSuccess createExpectationSuite (dfOfBatch X s.2))

/-- `validate_inference_data`: boundary `except` returns the sentinel
`False`. -/
def validate_inference_data (X : List (List Cell)) : Bool :=
  match validateInferenceBody X with
  | Except.ok b => b
  | Except.error _ => false

/-- The empirical CDF of a sample at a point: the fraction of observations
that are `≤ x` (NumPy's `searchsorted(..., side='right') / n`). -/
def ecdf (data : List ℚ) (x : ℚ) : ℚ :=
  (data.countP (fun v => decide (v ≤ x)) : ℚ) / (data.length : ℚ)

/-- The two-sample Kolmogorov-Smirnov statistic as `scipy.stats.ks_2samp`
computes it: the maximum of `|cdf1 - cdf2|` over the pooled sample. -/
def ksStatistic (data1 data2 : List ℚ) : ℚ :=
  ((data1 ++ data2).map (fun x => |ecdf data1 x - ecdf data2 x|)).foldl max 0

/-- One row of the lattice-path dynamic program: given the counts of the
previous row, produce the counts of the current row, zeroing every lattice
point outside the admissible band. -/
def nextRow (okRow : ℕ → Bool) (prev : List ℕ) : List ℕ :=
  (prev.foldl
    (fun (st : ℕ × ℕ × List ℕ) p =>
      let v := if okRow st.1 then st.2.1 + p else 0
      (st.1 + 1, v, st.2.2 ++ [v]))
    (0, 0, [])).2.2

/-- Number of monotone lattice paths from `(0,0)` to `(m,n)` all of whose
points `(x,y)` satisfy `|x*n - y*m| < bound`. -/
def insidePaths (m n : ℕ) (bound : ℤ) : ℕ :=
  let ok : ℕ → ℕ → Bool := fun x y => decide (|(x : ℤ) * n - (y : ℤ) * m| < bound)
  let base : List ℕ := 1 :: List.replicate m 0
  (((List.range (n + 1)).foldl (fun prev y => nextRow (fun x => ok x y) prev) base).getD m 0)

/-- The exact two-sided p-value of `scipy.stats.ks_2samp` (the code path
taken by `method='auto'` for the sample sizes arising in this program):
with `h = d * lcm(n1, n2)` (an integer), the p-value is `1` when `h = 0`,
and otherwise the exact survival probability
`Pr(D >= d) = 1 - (paths strictly inside the band) / C(n1+n2, n1)`,
which SciPy evaluates by the equivalent path-counting formulas of
`_attempt_exact_2kssamp`. -/
def ksPvalue (data1 data2 : List ℚ) : ℚ :=
  let n1 := data1.length
  let n2 := data2.length
  let g := Nat.gcd n1 n2
  let lcm := n1 / g * n2
  let d := ksStatistic data1 data2
  let h : ℤ := (d * (lcm : ℚ)).num
  if h = 0 then 1
  else max 0 (1 - (insidePaths n1 n2 (h * g) : ℚ) / (Nat.choose (n1 + n2) n1 : ℚ))

/-- `scipy.stats.ks_2samp`: raises on empty input, otherwise returns the
statistic and the two-sided p-value. -/
def ks_2samp (data1 data2 : List ℚ) : Except String (ℚ × ℚ) :=
  if data1.isEmpty ∨ data2.isEmpty then
    Except.error "Data passed to ks_2samp must not be empty"
  else
    Except.ok (ksStatistic data1 data2, ksPvalue data1 data2)

/-- The outputs `scipy.stats.anderson_ksamp` would return: statistic,
critical values, significance level.  The detector only forwards them. -/
abbrev AndersonResult : Type := ℚ × List ℚ × ℚ

/-- The per-feature entry of the drift report (`drift_details[f"feature_{i}"]`).
The three Anderson-Darling fields are `none` when the inner `except` caught
a failure of `anderson_ksamp`. -/
structure FeatureDrift where
  ks_statistic : ℚ
  ks_pvalue : ℚ
  ad_statistic : Option ℚ
  ad_critical : Option (List ℚ)
  ad_significance : Option ℚ
deriving DecidableEq, Repr

instance : Inhabited FeatureDrift := ⟨⟨0, 0, none, none, none⟩⟩

/-- `a[:, i]` on a 2-D array given as rows: raises when a row is too short,
otherwise the `i`-th column. -/
def getCol : List (List ℚ) → ℕ → Except String (List ℚ)
  | [], _ => Except.ok []
  | r :: rs, i =>
      match r.get? i with
      | some v => do
          let c ← getCol rs i
          Except.ok (v :: c)
      | none => Except.error "index out of bounds"

/-- The `i`-th column of a rectangular array, as a total function (used to
state theorems; agrees with `getCol` when every row is long enough). -/
def colD (rows : List (List ℚ)) (i : ℕ) : List ℚ :=
  rows.map (fun r => r.getD i 0)

/-- `reference_data.shape[1]`: the width of a non-empty rectangular array;
raises otherwise (a ragged or empty input is 1-D to NumPy). -/
def refWidth (rows : List (List ℚ)) : Except String ℕ := do
  let s ← shape2 rows
  Except.ok s.2

/-- One iteration of the detector's `for` loop: the KS test on column `i`
of both arrays (any exception propagates to the outer handler), then the
Anderson-Darling test guarded by the inner bare `except`. -/
def driftFeature (ad : List ℚ → List ℚ → Option AndersonResult)
    (reference current : List (List ℚ)) (i : ℕ) : Except String FeatureDrift := do
  let c1 ← getCol reference i
  let c2 ← getCol current i
  let ks ← ks_2samp c1 c2
  let adr := ad c1 c2
  Except.ok
    { ks_statistic := ks.1
      ks_pvalue := ks.2
      ad_statistic := adr.map (fun a => a.1)
      ad_critical := adr.map (fun a => a.2.1)
      ad_significance := adr.map (fun a => a.2.2) }

/-- The detector's `for` loop over the feature indices: accumulates the
`drift_detected` flag (`True` as soon as some KS p-value is `< 0.05`) and
the ordered per-feature report; an exception at any feature aborts the
whole loop (the partially built dict is discarded by the outer handler). -/
def driftLoop (ad : List ℚ → List ℚ → Option AndersonResult)
    (reference current : List (List ℚ)) :
    List ℕ → Except String (Bool × List (String × FeatureDrift))
  | [] => Except.ok (false, [])
  | i :: rest => do
      let fd ← driftFeature ad reference current i
      let r ← driftLoop ad reference current rest
      Except.ok ((decide (fd.ks_pvalue < 1/20) || r.1), (featureName i, fd) :: r.2)

/-- `detect_data_drift`: loop over `range(reference_data.shape[1])`; the
outer `except` converts any exception into `(False, {})`.  The
`anderson_ksamp` implementation is a parameter (`ad`), `none` modelling a
raising call. -/
def detect_data_drift (ad : List ℚ → List ℚ → Option AndersonResult)
    (reference current : List (List ℚ)) : Bool × List (String × FeatureDrift) :=
  match (do
      let d ← refWidth reference
      driftLoop ad reference current (List.range d) :
      Except String (Bool × List (String × FeatureDrift))) with
  | Except.ok r => r
  | Except.error _ => (false, [])

/-- The filesystem seen by the reference store: a map from paths to stored
arrays, most recent write first. -/
abbrev FileSystem : Type := List (String × List (List ℚ))

/-- The `str.endswith(".npy")` check of `np.save`, expressed on the
character list of the path. -/
def hasNpySuffix (path : String) : Bool :=
  ".npy".data.isSuffixOf path.data

/-- `np.save(path, data)` writes to `path` itself when it already ends in
`".npy"` and to `path + ".npy"` otherwise. -/
def npSaveTarget (path : String) : String :=
  if hasNpySuffix path then path else path ++ ".npy"

/-- Whether `os.path.dirname(path)` is non-empty, i.e. whether the path
contains a directory separator. -/
def hasDirComponent (path : String) : Bool :=
  path.data.contains '/'

/-- `save_reference_data`: `os.makedirs(os.path.dirname(path), exist_ok=True)`
raises `FileNotFoundError` when the path has no directory component
(`os.path.dirname` returns `""`); the function's `except` swallows the error
and nothing is written.  Otherwise directory creation and `np.save` are
assumed to succeed (the remaining fail-soft I/O branches are not
exercised). -/
def save_reference_data (fs : FileSystem) (data : List (List ℚ)) (path : String) :
    FileSystem :=
  if hasDirComponent path then (npSaveTarget path, data) :: fs else fs

/-- `load_reference_data`: `os.path.exists(path)` on the path as given,
then `np.load(path)`; `None` when the file is absent. -/
def load_reference_data (fs : FileSystem) (path : String) : Option (List (List ℚ)) :=
  List.lookup path fs

/-! ## Proof infrastructure -/

/-- Rectangularity: every row of the batch has width `d` (the invariant a
2-D NumPy array guarantees by construction). -/
def rect {α : Type} (rows : List (List α)) (d : ℕ) : Prop :=
  ∀ r ∈ rows, r.length = d

instance {α : Type} (rows : List (List α)) (d : ℕ) : Decidable (rect rows d) :=
  inferInstanceAs (Decidable (∀ r ∈ rows, r.length = d))

/-- The per-feature report entry that the loop body builds when nothing
raises, as a function of the two columns. -/
def mkFeatureDrift (ad : List ℚ → List ℚ → Option AndersonResult)
    (c1 c2 : List ℚ) : FeatureDrift :=
  { ks_statistic := ksStatistic c1 c2
    ks_pvalue := ksPvalue c1 c2
    ad_statistic := (ad c1 c2).map (fun a => a.1)
    ad_critical := (ad c1 c2).map (fun a => a.2.1)
    ad_significance := (ad c1 c2).map (fun a => a.2.2) }

/-- An `anderson_ksamp` implementation that always raises (used to
instantiate the detector at concrete inputs). -/
def adNone : List ℚ → List ℚ → Option AndersonResult := fun _ _ => none

lemma except_bind_ok {α β : Type} (a : α) (f : α → Except String β) :
    (Except.ok a >>= f) = f a := rfl

lemma except_bind_error {α β : Type} (e : String) (f : α → Except String β) :
    ((Except.error e : Except String α) >>= f) = Except.error e := rfl

lemma shape2_ok {α : Type} (X : List (List α)) (d : ℕ)
    (hr : rect X d) (hne : X ≠ []) : shape2 X = Except.ok (X.length, d) := by
  match X, hne with
  | r :: rs, _ =>
    have hrd : r.length = d := hr r (by simp)
    have hall : rs.all (fun q => decide (q.length = r.length)) = true := by
      rw [List.all_eq_true]
      intro q hq
      rw [decide_eq_true_eq, hrd]
      exact hr q (by simp [hq])
    simp only [shape2, List.all_eq_true] at hall ⊢
    rw [if_pos hall, hrd]

lemma refWidth_ok (rows : List (List ℚ)) (d : ℕ)
    (hr : rect rows d) (hne : rows ≠ []) : refWidth rows = Except.ok d := by
  simp [refWidth, shape2_ok rows d hr hne, except_bind_ok]

lemma colD_length (rows : List (List ℚ)) (i : ℕ) :
    (colD rows i).length = rows.length := by
  simp [colD]

lemma colD_ne_nil (rows : List (List ℚ)) (i : ℕ) (h : rows ≠ []) :
    colD rows i ≠ [] := by
  simp [colD, h]

lemma getCol_ok (rows : List (List ℚ)) (d i : ℕ)
    (hr : rect rows d) (hi : i < d) :
    getCol rows i = Except.ok (colD rows i) := by
  induction rows with
  | nil => rfl
  | cons r rs ih =>
      have h1 : i < r.length := by rw [hr r (by simp)]; exact hi
      have h2 : rect rs d := fun q hq => hr q (by simp [hq])
      have hget : r[i]? = some r[i] := List.getElem?_eq_getElem h1
      have hgetD : r.getD i 0 = r[i] := by
        rw [List.getD_eq_getElem?_getD, hget]
        rfl
      simp [getCol, hget, ih h2, except_bind_ok, colD, hgetD]

lemma ks_2samp_ok (c1 c2 : List ℚ) (h1 : c1 ≠ []) (h2 : c2 ≠ []) :
    ks_2samp c1 c2 = Except.ok (ksStatistic c1 c2, ksPvalue c1 c2) := by
  simp [ks_2samp, h1, h2]

lemma driftFeature_ok (ad : List ℚ → List ℚ → Option AndersonResult)
    (reference current : List (List ℚ)) (d d' i : ℕ)
    (hr : rect reference d) (hc : rect current d') (hi : i < d) (hi' : i < d')
    (hrne : reference ≠ []) (hcne : current ≠ []) :
    driftFeature ad reference current i =
      Except.ok (mkFeatureDrift ad (colD reference i) (colD current i)) := by
  simp [driftFeature, getCol_ok reference d i hr hi, getCol_ok current d' i hc hi',
    ks_2samp_ok _ _ (colD_ne_nil reference i hrne) (colD_ne_nil current i hcne),
    except_bind_ok, mkFeatureDrift]

lemma driftLoop_ok (ad : List ℚ → List ℚ → Option AndersonResult)
    (reference current : List (List ℚ)) (f : ℕ → FeatureDrift) (l : List ℕ)
    (h : ∀ i ∈ l, driftFeature ad reference current i = Except.ok (f i)) :
    driftLoop ad reference current l =
      Except.ok (l.any (fun i => decide ((f i).ks_pvalue < 1/20)),
        l.map (fun i => (featureName i, f i))) := by
  induction l with
  | nil => rfl
  | cons i rest ih =>
      have h1 := h i (by simp)
      have h2 : ∀ j ∈ rest, driftFeature ad reference current j = Except.ok (f j) :=
        fun j hj => h j (by simp [hj])
      simp [driftLoop, h1, ih h2, except_bind_ok, List.any_cons, Bool.or_comm]

/-- Characterisation of `detect_data_drift` on the exception-free path: for
non-empty rectangular inputs whose current width is at least the reference
width, the result is the fold of the per-column KS p-value comparisons and
the ordered per-feature report. -/
lemma detect_eq (ad : List ℚ → List ℚ → Option AndersonResult)
    (reference current : List (List ℚ)) (d d' : ℕ)
    (hr : rect reference d) (hc : rect current d') (hdd : d ≤ d')
    (hrne : reference ≠ []) (hcne : current ≠ []) :
    detect_data_drift ad reference current =
      ((List.range d).any (fun i =>
          decide (ksPvalue (colD reference i) (colD current i) < 1/20)),
       (List.range d).map (fun i =>
          (featureName i, mkFeatureDrift ad (colD reference i) (colD current i)))) := by
  have hloop := driftLoop_ok ad reference current
    (fun i => mkFeatureDrift ad (colD reference i) (colD current i)) (List.range d)
    (fun i hi => driftFeature_ok ad reference current d d' i hr hc
      (List.mem_range.mp hi) (lt_of_lt_of_le (List.mem_range.mp hi) hdd) hrne hcne)
  simp [detect_data_drift, refWidth_ok reference d hr hrne, except_bind_ok, hloop,
    mkFeatureDrift]

lemma foldl_max_of_le (l : List ℚ) (acc : ℚ) (h : ∀ a ∈ l, a ≤ acc) :
    l.foldl max acc = acc := by
  induction l generalizing acc with
  | nil => rfl
  | cons a t ih =>
      have h1 : max acc a = acc := max_eq_left (h a (by simp))
      simp only [List.foldl_cons, h1]
      exact ih acc (fun b hb => h b (by simp [hb]))

lemma ksStatistic_self (c : List ℚ) : ksStatistic c c = 0 := by
  unfold ksStatistic
  have hmap : ((c ++ c).map (fun x => |ecdf c x - ecdf c x|)) =
      (c ++ c).map (fun _ => (0 : ℚ)) := by
    apply List.map_congr_left
    intro x _
    simp
  rw [hmap]
  apply foldl_max_of_le
  intro a ha
  simp only [List.mem_map] at ha
  obtain ⟨x, _, hx⟩ := ha
  simp [← hx]

lemma ksPvalue_self (c : List ℚ) : ksPvalue c c = 1 := by
  simp [ksPvalue, ksStatistic_self]

lemma length_pos_ne_nil {α : Type} (l : List α) (h : 1 ≤ l.length) : l ≠ [] := by
  intro hnil
  rw [hnil] at h
  simp at h

lemma list_any_congr {α : Type} (l : List α) (f g : α → Bool)
    (h : ∀ x ∈ l, f x = g x) : l.any f = l.any g := by
  induction l with
  | nil => rfl
  | cons a t ih =>
      rw [List.any_cons, List.any_cons, h a (by simp),
        ih (fun x hx => h x (by simp [hx]))]

/-! ## Claims -/

/-- Claim C1: for every pair of reference and current batches of the same
feature width `d` with at least 2 rows each, `detect_data_drift` flags
feature `i` exactly when the two-sample KS p-value of column `i` is
strictly below 0.05, and `drift_detected` is true iff some feature is
flagged; the report records exactly the per-column KS results. -/
theorem detect_flags_iff_ks_pvalue (ad : List ℚ → List ℚ → Option AndersonResult)
    (reference current : List (List ℚ)) (d : ℕ)
    (hr : rect reference d) (hc : rect current d)
    (h2r : 2 ≤ reference.length) (h2c : 2 ≤ current.length) :
    ((detect_data_drift ad reference current).1 = true ↔
      ∃ i < d, ksPvalue (colD reference i) (colD current i) < 1/20)
    ∧ (detect_data_drift ad reference current).2 =
      (List.range d).map (fun i =>
        (featureName i, mkFeatureDrift ad (colD reference i) (colD current i))) := by
  have hrne : reference ≠ [] := length_pos_ne_nil _ (le_trans (by norm_num) h2r)
  have hcne : current ≠ [] := length_pos_ne_nil _ (le_trans (by norm_num) h2c)
  rw [detect_eq ad reference current d d hr hc le_rfl hrne hcne]
  refine ⟨?_, rfl⟩
  simp [List.any_eq_true, List.mem_range, mkFeatureDrift]

/-- Concrete instance of `detect_flags_iff_ks_pvalue`: two identical 2-row,
1-column batches. -/
theorem detect_flags_iff_ks_pvalue_witness :
    rect [[(0 : ℚ)], [1]] 1 ∧ 2 ≤ ([[(0 : ℚ)], [1]] : List (List ℚ)).length
    ∧ (((detect_data_drift adNone [[(0 : ℚ)], [1]] [[(0 : ℚ)], [1]]).1 = true ↔
        ∃ i < 1, ksPvalue (colD [[(0 : ℚ)], [1]] i) (colD [[(0 : ℚ)], [1]] i) < 1/20)
      ∧ (detect_data_drift adNone [[(0 : ℚ)], [1]] [[(0 : ℚ)], [1]]).2 =
        (List.range 1).map (fun i =>
          (featureName i,
            mkFeatureDrift adNone (colD [[(0 : ℚ)], [1]] i) (colD [[(0 : ℚ)], [1]] i)))) :=
  ⟨by decide, by decide,
   detect_flags_iff_ks_pvalue adNone [[(0 : ℚ)], [1]] [[(0 : ℚ)], [1]] 1
     (by decide) (by decide) (by decide) (by decide)⟩

/-- Claim C8: comparing a non-empty reference batch (at least 2 rows) with
itself yields `drift_detected = false`, and every per-feature entry has KS
p-value 1 and KS statistic 0. -/
theorem detect_self_no_drift (ad : List ℚ → List ℚ → Option AndersonResult)
    (reference : List (List ℚ)) (d : ℕ)
    (hr : rect reference d) (h2 : 2 ≤ reference.length) :
    (detect_data_drift ad reference reference).1 = false
    ∧ (detect_data_drift ad reference reference).2.map Prod.fst =
      (List.range d).map featureName
    ∧ ∀ e ∈ (detect_data_drift ad reference reference).2,
        e.2.ks_pvalue = 1 ∧ e.2.ks_statistic = 0 := by
  have hrne : reference ≠ [] := length_pos_ne_nil _ (le_trans (by norm_num) h2)
  rw [detect_eq ad reference reference d d hr hr le_rfl hrne hrne]
  have hone : ¬ ((1 : ℚ) < 1/20) := by norm_num
  refine ⟨?_, ?_, ?_⟩
  · simp [mkFeatureDrift, ksPvalue_self, hone]
    intro x _
    norm_num
  · simp [List.map_map]
  · intro e he
    simp only [List.mem_map, List.mem_range] at he
    obtain ⟨i, _, rfl⟩ := he
    simp [mkFeatureDrift, ksPvalue_self, ksStatistic_self]

/-- Concrete instance of `detect_self_no_drift`: a 2-row, 1-column
reference compared with itself. -/
theorem detect_self_no_drift_witness :
    rect [[(0 : ℚ)], [1]] 1 ∧ 2 ≤ ([[(0 : ℚ)], [1]] : List (List ℚ)).length
    ∧ ((detect_data_drift adNone [[(0 : ℚ)], [1]] [[(0 : ℚ)], [1]]).1 = false
      ∧ (detect_data_drift adNone [[(0 : ℚ)], [1]] [[(0 : ℚ)], [1]]).2.map Prod.fst =
        (List.range 1).map featureName
      ∧ ∀ e ∈ (detect_data_drift adNone [[(0 : ℚ)], [1]] [[(0 : ℚ)], [1]]).2,
          e.2.ks_pvalue = 1 ∧ e.2.ks_statistic = 0) :=
  ⟨by decide, by decide,
   detect_self_no_drift adNone [[(0 : ℚ)], [1]] 1 (by decide) (by decide)⟩

/-- Claim C5: for every reference batch, detection against an empty current
batch returns `drift_detected = false` with an empty per-feature map and no
exception (the internal KS error, or the trivial zero-width loop, both end
in the sentinel result). -/
theorem detect_empty_current (ad : List ℚ → List ℚ → Option AndersonResult)
    (reference : List (List ℚ)) :
    detect_data_drift ad reference [] = (false, []) := by
  unfold detect_data_drift
  cases hw : refWidth reference with
  | error e => simp [hw, except_bind_error]
  | ok d =>
      cases hd : List.range d with
      | nil => simp [hw, except_bind_ok, hd, driftLoop]
      | cons j rest =>
          have hfeat : ∃ e, driftFeature ad reference [] j = Except.error e := by
            unfold driftFeature
            cases hg : getCol reference j with
            | error e => exact ⟨e, by simp [hg, except_bind_error]⟩
            | ok c1 =>
                refine ⟨"Data passed to ks_2samp must not be empty", ?_⟩
                have hc2 : getCol [] j = Except.ok ([] : List ℚ) := rfl
                simp [hg, hc2, except_bind_ok, except_bind_error, ks_2samp]
          obtain ⟨e, he⟩ := hfeat
          simp [hw, except_bind_ok, hd, driftLoop, he, except_bind_error]

/-- Claim C10: the loop bound comes from the reference width alone — when
the current batch is wider, the detector's result is the same as on the
current batch truncated to the reference width, and the report names
exactly the reference's features; the extra columns are silently ignored
and the call completes normally. -/
theorem detect_extra_columns_ignored (ad : List ℚ → List ℚ → Option AndersonResult)
    (reference current : List (List ℚ)) (d d' : ℕ)
    (hr : rect reference d) (hc : rect current d') (hlt : d < d')
    (h1r : 1 ≤ reference.length) (h1c : 1 ≤ current.length) :
    detect_data_drift ad reference current =
      detect_data_drift ad reference (current.map (fun r => r.take d))
    ∧ (detect_data_drift ad reference current).2.map Prod.fst =
      (List.range d).map featureName := by
  have hrne : reference ≠ [] := length_pos_ne_nil _ h1r
  have hcne : current ≠ [] := length_pos_ne_nil _ h1c
  have hctake : rect (current.map fun r => r.take d) d := by
    intro r hmem
    simp only [List.mem_map] at hmem
    obtain ⟨q, hq, rfl⟩ := hmem
    rw [List.length_take, hc q hq]
    exact min_eq_left (le_of_lt hlt)
  have hcne' : current.map (fun r => r.take d) ≠ [] := by
    simp [hcne]
  have hcol : ∀ i, i < d → colD (current.map fun r => r.take d) i = colD current i := by
    intro i hi
    simp only [colD, List.map_map]
    apply List.map_congr_left
    intro r _
    simp only [Function.comp]
    rw [List.getD_eq_getElem?_getD, List.getD_eq_getElem?_getD,
      List.getElem?_take_of_lt hi]
  rw [detect_eq ad reference current d d' hr hc (le_of_lt hlt) hrne hcne,
    detect_eq ad reference (current.map fun r => r.take d) d d hr hctake le_rfl hrne hcne']
  refine ⟨?_, by simp [List.map_map]⟩
  have h1 : ((List.range d).any fun i =>
        decide (ksPvalue (colD reference i) (colD current i) < 1/20)) =
      ((List.range d).any fun i =>
        decide (ksPvalue (colD reference i) (colD (current.map fun r => r.take d) i) < 1/20)) := by
    apply list_any_congr
    intro i hi
    rw [hcol i (List.mem_range.mp hi)]
  have h2 : ((List.range d).map fun i =>
        (featureName i, mkFeatureDrift ad (colD reference i) (colD current i))) =
      ((List.range d).map fun i =>
        (featureName i, mkFeatureDrift ad (colD reference i)
          (colD (current.map fun r => r.take d) i))) := by
    apply List.map_congr_left
    intro i hi
    rw [hcol i (List.mem_range.mp hi)]
  rw [h1, h2]

/-- Concrete instance of `detect_extra_columns_ignored`: a 1-column
reference against a 2-column current batch. -/
theorem detect_extra_columns_ignored_witness :
    rect [[(0 : ℚ)], [1]] 1 ∧ rect [[(0 : ℚ), 7], [1, 8]] 2
    ∧ (detect_data_drift adNone [[(0 : ℚ)], [1]] [[(0 : ℚ), 7], [1, 8]] =
        detect_data_drift adNone [[(0 : ℚ)], [1]]
          (([[(0 : ℚ), 7], [1, 8]] : List (List ℚ)).map (fun r => r.take 1))
      ∧ (detect_data_drift adNone [[(0 : ℚ)], [1]] [[(0 : ℚ), 7], [1, 8]]).2.map Prod.fst =
        (List.range 1).map featureName) :=
  ⟨by decide, by decide,
   detect_extra_columns_ignored adNone [[(0 : ℚ)], [1]] [[(0 : ℚ), 7], [1, 8]] 1 2
     (by decide) (by decide) (by decide) (by decide) (by decide)⟩

/-- Claim C6: when the Anderson-Darling call fails for feature `i`, the
report still contains one entry per feature, entry `i` carries the computed
KS statistic and p-value next to `none` for all three Anderson-Darling
outputs, and every other feature's entry is computed as usual. -/
theorem detect_ad_failure_isolated (ad : List ℚ → List ℚ → Option AndersonResult)
    (reference current : List (List ℚ)) (d i : ℕ)
    (hr : rect reference d) (hc : rect current d)
    (h1r : 1 ≤ reference.length) (h1c : 1 ≤ current.length)
    (hi : i < d) (hfail : ad (colD reference i) (colD current i) = none) :
    (detect_data_drift ad reference current).2 =
      (List.range d).map (fun j =>
        (featureName j, mkFeatureDrift ad (colD reference j) (colD current j)))
    ∧ ((detect_data_drift ad reference current).2)[i]? =
      some (featureName i,
        { ks_statistic := ksStatistic (colD reference i) (colD current i)
          ks_pvalue := ksPvalue (colD reference i) (colD current i)
          ad_statistic := none
          ad_critical := none
          ad_significance := none }) := by
  have hrne : reference ≠ [] := length_pos_ne_nil _ h1r
  have hcne : current ≠ [] := length_pos_ne_nil _ h1c
  rw [detect_eq ad reference current d d hr hc le_rfl hrne hcne]
  refine ⟨rfl, ?_⟩
  rw [List.getElem?_map, List.getElem?_range hi]
  simp [mkFeatureDrift, hfail]

/-- Concrete instance of `detect_ad_failure_isolated`: the always-raising
Anderson-Darling implementation on identical 2-row, 1-column batches. -/
theorem detect_ad_failure_isolated_witness :
    rect [[(0 : ℚ)], [1]] 1 ∧ adNone (colD [[(0 : ℚ)], [1]] 0) (colD [[(0 : ℚ)], [1]] 0) = none
    ∧ ((detect_data_drift adNone [[(0 : ℚ)], [1]] [[(0 : ℚ)], [1]]).2 =
        (List.range 1).map (fun j =>
          (featureName j, mkFeatureDrift adNone (colD [[(0 : ℚ)], [1]] j) (colD [[(0 : ℚ)], [1]] j)))
      ∧ ((detect_data_drift adNone [[(0 : ℚ)], [1]] [[(0 : ℚ)], [1]]).2)[(0 : ℕ)]? =
        some (featureName 0,
          { ks_statistic := ksStatistic (colD [[(0 : ℚ)], [1]] 0) (colD [[(0 : ℚ)], [1]] 0)
            ks_pvalue := ksPvalue (colD [[(0 : ℚ)], [1]] 0) (colD [[(0 : ℚ)], [1]] 0)
            ad_statistic := none
            ad_critical := none
            ad_significance := none })) :=
  ⟨by decide, by decide,
   detect_ad_failure_isolated adNone [[(0 : ℚ)], [1]] [[(0 : ℚ)], [1]] 1 0
     (by decide) (by decide) (by decide) (by decide) (by decide) (by decide)⟩

/-- Claim C2 fails on the code: comparing a 2-column reference with a
1-column current batch does not fail fast — the internal `IndexError` is
swallowed by the outer `except` and the call returns `(False, {})`, the
very same value returned for an empty current batch (the legitimate
"no comparison possible, no drift" result). -/
theorem detect_width_mismatch_no_error :
    detect_data_drift adNone [[(0 : ℚ), 0], [1, 1]] [[(0 : ℚ)], [1]] = (false, [])
    ∧ detect_data_drift adNone [[(0 : ℚ), 0], [1, 1]] [[(0 : ℚ)], [1]] =
      detect_data_drift adNone [[(0 : ℚ), 0], [1, 1]] [] := by
  decide

/-- Claim C7: schema construction is fixed and deterministic — the suite is
exactly the ordered constraint set: row count in [1, 10000], the ordered
column list `feature_0 .. feature_3`, and for each feature column an
existence, a `float64` type, a not-null, and a value-in-[-10, 10]
constraint, in that order. -/
theorem createExpectationSuite_fixed :
    createExpectationSuite =
      [ExpectationConfiguration.expect_table_row_count_to_be_between 1 10000,
       ExpectationConfiguration.expect_table_columns_to_match_ordered_list
         ["feature_0", "feature_1", "feature_2", "feature_3"],
       ExpectationConfiguration.expect_column_to_exist "feature_0",
       ExpectationConfiguration.expect_column_values_to_be_of_type "feature_0" "float64",
       ExpectationConfiguration.expect_column_values_to_not_be_null "feature_0",
       ExpectationConfiguration.expect_column_values_to_be_between "feature_0" (-10) 10,
       ExpectationConfiguration.expect_column_to_exist "feature_1",
       ExpectationConfiguration.expect_column_values_to_be_of_type "feature_1" "float64",
       ExpectationConfiguration.expect_column_values_to_not_be_null "feature_1",
       ExpectationConfiguration.expect_column_values_to_be_between "feature_1" (-10) 10,
       ExpectationConfiguration.expect_column_to_exist "feature_2",
       ExpectationConfiguration.expect_column_values_to_be_of_type "feature_2" "float64",
       ExpectationConfiguration.expect_column_values_to_not_be_null "feature_2",
       ExpectationConfiguration.expect_column_values_to_be_between "feature_2" (-10) 10,
       ExpectationConfiguration.expect_column_to_exist "feature_3",
       ExpectationConfiguration.expect_column_values_to_be_of_type "feature_3" "float64",
       ExpectationConfiguration.expect_column_values_to_not_be_null "feature_3",
       ExpectationConfiguration.expect_column_values_to_be_between "feature_3" (-10) 10] := by
  decide

/-- Claim C3 fails on the code: the appended `target` column is seen by the
suite's `expect_table_columns_to_match_ordered_list` expectation, so a
width-4 batch that satisfies every feature constraint (shown by the passing
inference validation of the same batch) is nevertheless rejected by
`validate_training_data`. -/
theorem validate_training_target_not_ignored :
    validate_training_data
      [[Cell.num 0, Cell.num 0, Cell.num 0, Cell.num 0],
       [Cell.num 1, Cell.num 1, Cell.num 1, Cell.num 1]]
      [Cell.num 0, Cell.num 1] = false
    ∧ validate_inference_data
      [[Cell.num 0, Cell.num 0, Cell.num 0, Cell.num 0],
       [Cell.num 1, Cell.num 1, Cell.num 1, Cell.num 1]] = true := by
  decide

/-- Claim C4 (amended): on any input that cannot be interpreted as a 2-D
array (empty or ragged), the validation body raises internally, the
boundary `except` catches it, and both validators return the bare sentinel
`false` — the caller always receives a boolean result and no exception
escapes. -/
theorem validate_structural_error_fails_closed (X : List (List Cell)) (y : List Cell)
    (h : (shape2 X).isOk = false) :
    (∃ e, validateTrainingBody X y = Except.error e)
    ∧ validate_training_data X y = false
    ∧ (∃ e, validateInferenceBody X = Except.error e)
    ∧ validate_inference_data X = false := by
  cases hs : shape2 X with
  | ok s =>
      rw [hs] at h
      simp [Except.isOk, Except.toBool] at h
  | error e =>
      refine ⟨⟨e, ?_⟩, ?_, ⟨e, ?_⟩, ?_⟩ <;>
        simp [validateTrainingBody, validateInferenceBody, validate_training_data,
          validate_inference_data, hs, except_bind_error]

/-- Concrete instance of `validate_structural_error_fails_closed`: a ragged
two-row batch. -/
theorem validate_structural_error_fails_closed_witness :
    (shape2 [[Cell.num 0], []]).isOk = false
    ∧ ((∃ e, validateTrainingBody [[Cell.num 0], []] [] = Except.error e)
      ∧ validate_training_data [[Cell.num 0], []] [] = false
      ∧ (∃ e, validateInferenceBody [[Cell.num 0], []] = Except.error e)
      ∧ validate_inference_data [[Cell.num 0], []] = false) :=
  ⟨by decide, validate_structural_error_fails_closed [[Cell.num 0], []] [] (by decide)⟩

/-- Claim C4, as stated, fails on the code: the value returned for a
structural error is the bare boolean `false`, literally identical to the
value returned for an ordinary constraint failure (a rectangular batch with
15 in `feature_0`), so the result carries no error detail in statistics —
the detail is only logged. -/
theorem validate_structural_error_bare_sentinel :
    validate_inference_data [[Cell.num 0], []] =
      validate_inference_data
        [[Cell.num 15, Cell.num 0, Cell.num 0, Cell.num 0],
         [Cell.num 1, Cell.num 1, Cell.num 1, Cell.num 1]]
    ∧ validate_inference_data [[Cell.num 0], []] = false := by
  decide

/-- Claim C9 (amended): saving then loading from the same path returns the
array unchanged for every path that ends in `".npy"` and has a directory
component; for other paths the round trip fails — without the suffix
`np.save` writes to `path + ".npy"` while the load checks the path as
given, and without a directory component `os.makedirs("")` raises, the
`except` swallows it, and nothing is saved. -/
theorem load_save_roundtrip_npy (fs : FileSystem) (X : List (List ℚ)) (path : String)
    (h1 : hasNpySuffix path = true) (h2 : hasDirComponent path = true) :
    load_reference_data (save_reference_data fs X path) path = some X := by
  simp [load_reference_data, save_reference_data, npSaveTarget, h1, h2, List.lookup]

/-- Concrete instance of `load_save_roundtrip_npy`: a 1x1 array saved at
`"model/r.npy"` on an empty filesystem. -/
theorem load_save_roundtrip_npy_witness :
    hasNpySuffix "model/r.npy" = true ∧ hasDirComponent "model/r.npy" = true
    ∧ load_reference_data (save_reference_data [] [[(1 : ℚ)]] "model/r.npy")
        "model/r.npy" = some [[(1 : ℚ)]] :=
  ⟨by decide, by decide,
   load_save_roundtrip_npy [] [[(1 : ℚ)]] "model/r.npy" (by decide) (by decide)⟩

/-- Claim C9, as stated for every path, fails on the code in two ways:
saving to a path without the `".npy"` suffix stores the array at
`path + ".npy"`, so loading the original path returns `None`; and saving to
a bare filename such as `"r.npy"` makes `os.makedirs(os.path.dirname(path))`
raise on the empty dirname, the `except` swallows it, nothing is written,
and loading returns `None`. -/
theorem load_save_roundtrip_fails_without_npy :
    load_reference_data (save_reference_data [] [[(1 : ℚ)]] "model/reference")
      "model/reference" = none
    ∧ load_reference_data (save_reference_data [] [[(1 : ℚ)]] "r.npy") "r.npy" =
      none := by
  decide

end DataQuality
